import Mathlib

/-!
Verification of the DomeKit runtime against its natural-language
specification.  The definitions below are a shallow embedding of the
Python sources under `src/`:

* `contracts/manifest.py`  → the `Manifest` structures,
* `runtime/policy.py`      → `check_tool`, `check_data_access`,
* `runtime/tool_router.py` → `processDirective`, `runLoop`, `routerRun`,
* `runtime/audit/*.py`     → `readAll` and the query helpers,
* `runtime/metrics.py`     → `latencyPercentiles`,
* `runtime/tools/*.py`     → `sqlQueryRun`, `readFileRun`, `writeFileRun`,
  `vectorSearchRun`.

Python dynamic values (JSON payloads, tool arguments, audit details) are
embedded as the inductive `JVal`.  Machine floats appear only in
timestamps and metric percentile indices; the embedding restricts
timestamps to whole seconds (integers), at which every arithmetic step
performed by the code is exact, so `Int`/`Rat` model them faithfully.
-/

namespace DomeKit

/-- A JSON-like dynamic value: the shallow embedding of the Python values
that flow through tool arguments, tool results and audit `detail` maps.
Objects are insertion-ordered key/value lists, as Python dicts are. -/
inductive JVal where
  | null : JVal
  | bool : Bool → JVal
  | num : ℚ → JVal
  | str : String → JVal
  | arr : List JVal → JVal
  | obj : List (String × JVal) → JVal
  deriving Repr

/-- JSON objects / Python dicts: insertion-ordered association lists. -/
abbrev JObj := List (String × JVal)

/-- `d.get(k)` on a Python dict: first binding wins (keys are unique in a
real dict, so first-match lookup is a faithful model). -/
def jGet (o : JObj) (k : String) : Option JVal :=
  (o.find? (fun kv => kv.1 = k)).map (·.2)

/-- `d.get(k, default)` on a Python dict. -/
def jGetD (o : JObj) (k : String) (dflt : JVal) : JVal :=
  (jGet o k).getD dflt

/-- Python truthiness of a dynamic value (`if x:`): `None`, `False`, zero,
and empty strings/lists/dicts are falsy. -/
def jTruthy : JVal → Bool
  | .null => false
  | .bool b => b
  | .num q => q != 0
  | .str s => !s.isEmpty
  | .arr xs => !xs.isEmpty
  | .obj fs => !fs.isEmpty

/-- String escaping performed by `json.dumps` for the characters that can
occur in this development (backslash and double quote). -/
def jescape (s : String) : String :=
  String.join (s.data.map (fun c =>
    if c = '\\' then "\\\\"
    else if c = '"' then "\\\""
    else String.singleton c))

mutual

/-- `json.dumps` with its default separators (", " between items and
": " after keys), as used for tool-message payloads in the router. -/
def jdump : JVal → String
  | .null => "null"
  | .bool true => "true"
  | .bool false => "false"
  | .num q => toString q
  | .str s => "\"" ++ jescape s ++ "\""
  | .arr xs => "[" ++ jdumpArr xs ++ "]"
  | .obj fs => "\x7b" ++ jdumpObj fs ++ "\x7d"

/-- Comma-joined serialization of a JSON array body. -/
def jdumpArr : List JVal → String
  | [] => ""
  | [x] => jdump x
  | x :: y :: rest => jdump x ++ ", " ++ jdumpArr (y :: rest)

/-- Comma-joined serialization of a JSON object body. -/
def jdumpObj : List (String × JVal) → String
  | [] => ""
  | [(k, v)] => "\"" ++ jescape k ++ "\": " ++ jdump v
  | (k, v) :: kv :: rest =>
      "\"" ++ jescape k ++ "\": " ++ jdump v ++ ", " ++ jdumpObj (kv :: rest)

end

/-! ### Manifest data model — `src/contracts/manifest.py` -/

/-- `contracts/manifest.py::PolicyMode`. -/
inductive PolicyMode where
  | local_only : PolicyMode
  | developer : PolicyMode
  deriving Repr, DecidableEq

/-- `contracts/manifest.py::AppInfo`. -/
structure AppInfo where
  name : String
  version : String := "0.0.1"
  deriving Repr, DecidableEq

/-- `contracts/manifest.py::RuntimeConfig`. -/
structure RuntimeConfig where
  base_url : String := "http://127.0.0.1:8080"
  policy_mode : PolicyMode := .local_only
  deriving Repr, DecidableEq

/-- `contracts/manifest.py::NetworkPolicy`. -/
structure NetworkPolicy where
  outbound : String := "deny"
  allow_domains : List String := []
  deriving Repr, DecidableEq

/-- `contracts/manifest.py::DataSqlitePolicy`. -/
structure DataSqlitePolicy where
  allow : List String := []
  deriving Repr, DecidableEq

/-- `contracts/manifest.py::DataFilesystemPolicy`. -/
structure DataFilesystemPolicy where
  allow_read : List String := []
  allow_write : List String := []
  deriving Repr, DecidableEq

/-- `contracts/manifest.py::DataVectorPolicy`. -/
structure DataVectorPolicy where
  allow : List String := []
  allow_write : List String := []
  deriving Repr, DecidableEq

/-- `contracts/manifest.py::DataPolicy`. -/
structure DataPolicy where
  sqlite : DataSqlitePolicy := {}
  filesystem : DataFilesystemPolicy := {}
  vector : DataVectorPolicy := {}
  deriving Repr, DecidableEq

/-- `contracts/manifest.py::ToolsPolicy`. -/
structure ToolsPolicy where
  allow : List String := []
  deriving Repr, DecidableEq

/-- `contracts/manifest.py::Policy`. -/
structure Policy where
  network : NetworkPolicy := {}
  tools : ToolsPolicy := {}
  data : DataPolicy := {}
  deriving Repr, DecidableEq

/-- `contracts/manifest.py::ModelEntry`. -/
structure ModelEntry where
  id : String
  context_window : Int := 8192
  deriving Repr, DecidableEq

/-- `contracts/manifest.py::ModelsConfig`.  The `map` dict is embedded as
an insertion-ordered association list. -/
structure ModelsConfig where
  backend : String := "ollama"
  default : String := ""
  map : List (String × ModelEntry) := []
  deriving Repr, DecidableEq

/-- `contracts/manifest.py::ToolConfig`.  `max_rows`/`max_bytes` are
Python `int | None`; manifests declare them as non-negative caps, so the
embedding uses `Option ℕ`. -/
structure ToolConfig where
  type : String := "builtin"
  read_only : Bool := false
  max_rows : Option ℕ := none
  max_bytes : Option ℕ := none
  deriving Repr, DecidableEq

/-- `contracts/manifest.py::AuditConfig`. -/
structure AuditConfig where
  path : String := "audit.jsonl"
  redact_prompt : Bool := false
  redact_tool_outputs : Bool := false
  deriving Repr, DecidableEq

/-- `contracts/manifest.py::EmbeddingConfig`. -/
structure EmbeddingConfig where
  backend : String := "ollama"
  model : String := "nomic-embed-text"
  deriving Repr, DecidableEq

/-- `contracts/manifest.py::VectorConfig`. -/
structure VectorConfig where
  backend : String := "chroma"
  default_top_k : ℕ := 10
  deriving Repr, DecidableEq

/-- `contracts/manifest.py::Manifest`.  `tools` is a dict of per-tool
configs, embedded as an association list. -/
structure Manifest where
  app : AppInfo
  runtime : RuntimeConfig := {}
  policy : Policy := {}
  models : ModelsConfig := {}
  tools : List (String × ToolConfig) := []
  audit : AuditConfig := {}
  embedding : EmbeddingConfig := {}
  vector_db : VectorConfig := {}
  deriving Repr, DecidableEq

/-- The string value of a `PolicyMode` (`.value` on the Python enum). -/
def PolicyMode.toValue : PolicyMode → String
  | .local_only => "local_only"
  | .developer => "developer"

/-! ### Policy engine — `src/runtime/policy.py` -/

/-- `contracts/policy.py::PolicyVerdict`. -/
inductive PolicyVerdict where
  | allow : PolicyVerdict
  | deny : PolicyVerdict
  deriving Repr, DecidableEq

/-- `contracts/policy.py::PolicyDecision`. -/
structure PolicyDecision where
  verdict : PolicyVerdict
  rule : String := ""
  reason : String := ""
  deriving Repr, DecidableEq

/-- `contracts/tool_sdk.py::ToolInput`.  Arguments are the already-parsed
JSON object. -/
structure ToolInput where
  tool_name : String
  arguments : JObj
  call_id : String
  deriving Repr

/-- `DomeKitPolicyEngine._mode`: the engine state is the optionally
loaded manifest; with no manifest the property defaults to `local_only`. -/
def engineMode : Option Manifest → PolicyMode
  | none => .local_only
  | some m => m.runtime.policy_mode

/-- `runtime/policy.py::DomeKitPolicyEngine.check_tool`, with the engine
state (`self._manifest`) passed explicitly. -/
def check_tool (manifest : Option Manifest) (tool_input : ToolInput) : PolicyDecision :=
  match manifest with
  | none =>
      { verdict := .deny, rule := "no_manifest", reason := "No manifest loaded" }
  | some m =>
      if engineMode (some m) = .developer then
        { verdict := .allow, rule := "developer_mode",
          reason := "Developer mode allows all tools" }
      else if tool_input.tool_name ∈ m.policy.tools.allow then
        { verdict := .allow, rule := "tools.allow",
          reason := "Tool \x27" ++ tool_input.tool_name ++ "\x27 is in the allow list" }
      else
        { verdict := .deny, rule := "tools.allow",
          reason := "Tool \x27" ++ tool_input.tool_name ++ "\x27 is not in the allow list" }

/-! ### Glob matching — Python `fnmatch.fnmatch`

`fnmatch.fnmatch(name, pattern)` on POSIX (where `os.path.normcase` is
the identity) matches the whole string against a shell-style pattern:
`*` matches any run, `?` any single character, and `[...]` a character
class (leading `!` negates; `lo-hi` is a code-point range; a `[` with no
closing `]` is a literal `[`).  The matcher below is structurally
recursive on an explicit fuel; every recursive call shrinks
`pattern.length + name.length`, so fuel `pattern.length + name.length + 1`
always suffices and the `0` case is unreachable. -/

/-- One item of a `[...]` character class: a literal or a range. -/
inductive ClassItem where
  | single : Char → ClassItem
  | range : Char → Char → ClassItem
  deriving Repr, DecidableEq

/-- Scanner for the body of a `[...]` class: collects items up to the
closing `]` (a `]` in first position is a literal item, as in Python). -/
def classScan : List Char → Bool → Option (List ClassItem × List Char)
  | [], _ => none
  | ']' :: rest, first =>
      if first then
        (classScan rest false).map (fun r => (ClassItem.single ']' :: r.1, r.2))
      else some ([], rest)
  | lo :: '-' :: hi :: rest, _ =>
      if hi = ']' then
        (classScan (']' :: rest) false).map (fun r =>
          (ClassItem.single lo :: ClassItem.single '-' :: r.1, r.2))
      else
        (classScan rest false).map (fun r => (ClassItem.range lo hi :: r.1, r.2))
  | c :: rest, _ => (classScan rest false).map (fun r => (ClassItem.single c :: r.1, r.2))

/-- Parse the body of a `[...]` class (the list is the pattern just after
the opening `[`).  Returns `(negated, items, rest-of-pattern)`, or `none`
when no closing `]` exists (then the `[` is a literal character). -/
def parseClass (ps : List Char) : Option (Bool × List ClassItem × List Char) :=
  let (neg, ps1) := match ps with
    | '!' :: rest => (true, rest)
    | _ => (false, ps)
  (classScan ps1 true).map (fun r => (neg, r.1, r.2))

/-- Does character `c` match one class item? -/
def classItemMatch (c : Char) : ClassItem → Bool
  | .single x => c = x
  | .range lo hi => lo.val ≤ c.val && c.val ≤ hi.val

/-- Fueled core of the glob matcher (pattern, then name). -/
def globMatch : ℕ → List Char → List Char → Bool
  | 0, _, _ => false
  | fuel + 1, pat, s =>
    match pat, s with
    | [], rest => rest.isEmpty
    | '*' :: ps, [] => globMatch fuel ps []
    | '*' :: ps, c :: cs =>
        globMatch fuel ps (c :: cs) || globMatch fuel ('*' :: ps) cs
    | '?' :: ps, _ :: cs => globMatch fuel ps cs
    | '?' :: _, [] => false
    | '[' :: ps, s =>
        match parseClass ps with
        | none =>
            match s with
            | c :: cs => c = '[' && globMatch fuel ps cs
            | [] => false
        | some (neg, items, rest) =>
            match s with
            | c :: cs =>
                (items.any (classItemMatch c) != neg) && globMatch fuel rest cs
            | [] => false
    | p :: ps, c :: cs => p = c && globMatch fuel ps cs
    | _ :: _, [] => false

/-- Python `fnmatch.fnmatch(name, pattern)` on POSIX. -/
def fnmatch (name pattern : String) : Bool :=
  globMatch (pattern.length + name.length + 1) pattern.data name.data

/-! ### Path canonicalization — Python `Path(p).resolve()`

The embedding models a symlink-free POSIX filesystem and absolute input
paths, under which `Path.resolve()` is lexical normalization: split on
`/`, drop empty components and `.`, and let `..` remove the preceding
component (`..` at the root stays at the root). -/

/-- Split a character list on `/` (the component split of a POSIX
path). -/
def splitSlashAux : List Char → List Char → List String
  | [], cur => [String.mk cur.reverse]
  | '/' :: rest, cur => String.mk cur.reverse :: splitSlashAux rest []
  | c :: rest, cur => splitSlashAux rest (c :: cur)

/-- `p.split("/")`. -/
def splitSlash (p : String) : List String :=
  splitSlashAux p.data []

/-- Join path components with `/`. -/
def joinComponents : List String → String
  | [] => ""
  | [c] => c
  | c :: c2 :: rest => c ++ "/" ++ joinComponents (c2 :: rest)

/-- `Path(p).resolve()` for an absolute path on a symlink-free POSIX
filesystem: drop empty and `.` components, let `..` remove the
preceding component (at the root it stays at the root), and reassemble
from `/`. -/
def resolvePath (p : String) : String :=
  let comps := (splitSlash p).filter (fun c => c ≠ "" && c ≠ ".")
  let norm := comps.foldl (fun acc c => if c = ".." then acc.dropLast else acc ++ [c]) []
  "/" ++ joinComponents norm

/-- `runtime/policy.py::DomeKitPolicyEngine.check_data_access`, with the
engine state passed explicitly.  Note that the source compares the *raw*
`path` against `policy.data.sqlite.allow` — it performs no
canonicalization of its own. -/
def check_data_access (manifest : Option Manifest) (path : String)
    (access : String := "read") : PolicyDecision :=
  match manifest with
  | none =>
      { verdict := .deny, rule := "no_manifest", reason := "No manifest loaded" }
  | some m =>
      if engineMode (some m) = .developer then
        { verdict := .allow, rule := "developer_mode",
          reason := "Developer mode allows all data access" }
      else
        let policy := m.policy
        if access = "read" then
          if path ∈ policy.data.sqlite.allow then
            { verdict := .allow, rule := "data.sqlite.allow",
              reason := "SQLite path \x27" ++ path ++ "\x27 is allowed" }
          else
            match policy.data.filesystem.allow_read.find? (fun pattern => fnmatch path pattern) with
            | some pattern =>
                { verdict := .allow, rule := "data.filesystem.allow_read",
                  reason := "Path \x27" ++ path ++ "\x27 matches read pattern \x27" ++ pattern ++ "\x27" }
            | none =>
                { verdict := .deny, rule := "data.read",
                  reason := "Path \x27" ++ path ++ "\x27 is not in any read allow list" }
        else if access = "write" then
          match policy.data.filesystem.allow_write.find? (fun pattern => fnmatch path pattern) with
          | some pattern =>
              { verdict := .allow, rule := "data.filesystem.allow_write",
                reason := "Path \x27" ++ path ++ "\x27 matches write pattern \x27" ++ pattern ++ "\x27" }
          | none =>
              { verdict := .deny, rule := "data.write",
                reason := "Path \x27" ++ path ++ "\x27 is not in the write allow list" }
        else if access = "vector_read" then
          match policy.data.vector.allow.find? (fun pattern => fnmatch path pattern) with
          | some pattern =>
              { verdict := .allow, rule := "data.vector.allow",
                reason := "Collection \x27" ++ path ++ "\x27 matches vector read pattern \x27" ++ pattern ++ "\x27" }
          | none =>
              { verdict := .deny, rule := "data.vector_read",
                reason := "Collection \x27" ++ path ++ "\x27 is not in the vector allow list" }
        else if access = "vector_write" then
          match policy.data.vector.allow_write.find? (fun pattern => fnmatch path pattern) with
          | some pattern =>
              { verdict := .allow, rule := "data.vector.allow_write",
                reason := "Collection \x27" ++ path ++ "\x27 matches vector write pattern \x27" ++ pattern ++ "\x27" }
          | none =>
              { verdict := .deny, rule := "data.vector_write",
                reason := "Collection \x27" ++ path ++ "\x27 is not in the vector write allow list" }
        else
          { verdict := .deny, rule := "data.unknown_access",
            reason := "Unknown access type \x27" ++ access ++ "\x27" }

mutual

/-- Python `==` on embedded dynamic values (used for `in` membership
tests on lists of dynamic values). -/
def jeqb : JVal → JVal → Bool
  | .null, .null => true
  | .bool a, .bool b => a = b
  | .num a, .num b => a = b
  | .str a, .str b => a = b
  | .arr a, .arr b => jeqbList a b
  | .obj a, .obj b => jeqbObj a b
  | _, _ => false

/-- Elementwise `jeqb` on lists. -/
def jeqbList : List JVal → List JVal → Bool
  | [], [] => true
  | a :: as_, b :: bs => jeqb a b && jeqbList as_ bs
  | _, _ => false

/-- Elementwise `jeqb` on object field lists. -/
def jeqbObj : List (String × JVal) → List (String × JVal) → Bool
  | [], [] => true
  | (ka, va) :: as_, (kb, vb) :: bs => ka = kb && jeqb va vb && jeqbObj as_ bs
  | _, _ => false

end

/-! ### Audit store — `src/contracts/audit.py`, `src/runtime/audit/` -/

/-- `contracts/audit.py::AuditEvent`. -/
inductive AuditEvent where
  | request_start : AuditEvent
  | tool_call : AuditEvent
  | tool_result : AuditEvent
  | request_end : AuditEvent
  | policy_block : AuditEvent
  deriving Repr, DecidableEq

/-- `contracts/audit.py::AuditEntry`.  Timestamps are restricted to whole
seconds (see the module comment), embedded as `Int`. -/
structure AuditEntry where
  ts : Int := 0
  request_id : String
  event : AuditEvent
  app : String := ""
  model : String := ""
  policy_mode : String := "local_only"
  detail : JObj := []
  deriving Repr

/-- One physical line of the JSONL audit file, as `json.loads` sees it:
blank (skipped after `strip()`), a well-formed serialization of an
entry, or malformed text (truncated or non-JSON), on which `json.loads`
raises `JSONDecodeError`. -/
inductive AuditLine where
  | blank : AuditLine
  | malformed : AuditLine
  | entry : AuditEntry → AuditLine
  deriving Repr

/-- The line-scanning loop shared by `runtime/audit/query.py::_read_all`
and `runtime/audit/logger.py::JsonlAuditLogger._read_all`: skip blank
lines, parse each remaining line with `json.loads`, append in order.
`json.loads` has no surrounding `try`, so a malformed line raises —
embedded as `Except.error`. -/
def readLines : List AuditLine → Except String (List AuditEntry)
  | [] => .ok []
  | .blank :: rest => readLines rest
  | .malformed :: _ => .error "json decode error"
  | .entry e :: rest => (readLines rest).map (fun es => e :: es)

/-- `runtime/audit/query.py::_read_all`: a missing file (`none`) yields
the empty list; otherwise the line scan runs. -/
def readAll : Option (List AuditLine) → Except String (List AuditEntry)
  | none => .ok []
  | some ls => readLines ls

/-- Python `xs[-n:]` for `n : ℕ` (note `xs[-0:]` is the whole list). -/
def lastN (n : ℕ) (xs : List AuditEntry) : List AuditEntry :=
  if n = 0 then xs else xs.drop (xs.length - n)

/-- `runtime/audit/query.py::query_by_request`. -/
def queryByRequest (file : Option (List AuditLine)) (request_id : String) :
    Except String (List AuditEntry) :=
  (readAll file).map (fun es => es.filter (fun e => e.request_id = request_id))

/-- `runtime/audit/query.py::query_by_event`. -/
def queryByEvent (file : Option (List AuditLine)) (event : AuditEvent)
    (limit : ℕ := 100) : Except String (List AuditEntry) :=
  (readAll file).map (fun es => lastN limit (es.filter (fun e => e.event = event)))

/-- `runtime/audit/query.py::tail`. -/
def tailEntries (file : Option (List AuditLine)) (n : ℕ := 20) :
    Except String (List AuditEntry) :=
  (readAll file).map (lastN n)

/-- Stable insertion into a list sorted by decreasing timestamp (equal
timestamps keep their original relative order, as Python stable sort). -/
def insertByTsDesc (x : AuditEntry) : List AuditEntry → List AuditEntry
  | [] => [x]
  | y :: ys => if x.ts ≤ y.ts then y :: insertByTsDesc x ys else x :: y :: ys

/-- `sort(key=ts, reverse=True)`: stable descending sort by timestamp. -/
def sortByTsDesc (es : List AuditEntry) : List AuditEntry :=
  es.foldl (fun acc e => insertByTsDesc e acc) []

/-- `runtime/audit/query.py::query_filtered`: filter, count, sort newest
first, paginate with `[offset : offset + limit]`. -/
def queryFiltered (file : Option (List AuditLine))
    (event : Option AuditEvent := none) (since : Option Int := none)
    (until_ : Option Int := none) (request_id : Option String := none)
    (limit : ℕ := 100) (offset : ℕ := 0) :
    Except String (List AuditEntry × ℕ) :=
  (readAll file).map (fun all_entries =>
    let f1 := match event with
      | some ev => all_entries.filter (fun e => e.event = ev)
      | none => all_entries
    let f2 := match request_id with
      | some rid => f1.filter (fun e => e.request_id = rid)
      | none => f1
    let f3 := match since with
      | some t => f2.filter (fun e => t ≤ e.ts)
      | none => f2
    let f4 := match until_ with
      | some t => f3.filter (fun e => e.ts ≤ t)
      | none => f3
    let total := f4.length
    let sorted := sortByTsDesc f4
    ((sorted.drop offset).take limit, total))

/-! ### Metrics — `src/runtime/metrics.py::_latency_percentiles` -/

/-- Overwriting assignment `d[k] = v` on an insertion-ordered dict. -/
def setAssoc : List (String × Int) → String → Int → List (String × Int)
  | [], k, v => [(k, v)]
  | (k0, v0) :: rest, k, v =>
      if k0 = k then (k0, v) :: rest else (k0, v0) :: setAssoc rest k v

/-- Dict lookup (`k in d` / `d[k]`). -/
def getAssoc (d : List (String × Int)) (k : String) : Option Int :=
  (d.find? (fun kv => kv.1 = k)).map (·.2)

/-- The pairing loop of `_latency_percentiles`: remember each
`request.start` timestamp per request id (later starts overwrite), and
for each `request.end` whose id has a remembered start, append the
duration in seconds. -/
def latencyDurations (entries : List AuditEntry) : List Int :=
  (entries.foldl (fun acc e =>
    if e.event = .request_start then (setAssoc acc.1 e.request_id e.ts, acc.2)
    else if e.event = .request_end then
      match getAssoc acc.1 e.request_id with
      | some t => (acc.1, acc.2 ++ [e.ts - t])
      | none => acc
    else acc)
    (([] : List (String × Int)), ([] : List Int))).2

/-- Ascending insertion preserving order (`list.sort` on numbers). -/
def insertAsc (x : Int) : List Int → List Int
  | [] => [x]
  | y :: ys => if x ≤ y then x :: y :: ys else y :: insertAsc x ys

/-- `durations.sort()`. -/
def sortAsc (xs : List Int) : List Int :=
  xs.foldl (fun acc x => insertAsc x acc) []

/-- The latency block of the metrics payload. -/
structure LatencyStats where
  p50 : Int
  p95 : Int
  p99 : Int
  count : ℕ
  deriving Repr, DecidableEq

/-- `runtime/metrics.py::_latency_percentiles`.  With whole-second
durations `round(_, 3)` is the identity, and the float index expressions
`int(n * 0.50)`, `int(min(n * 0.95, n - 1))`, `int(min(n * 0.99, n - 1))`
are exact at every count exercised here, so they are embedded as the
rational computations `n * 50 / 100` (floor division) and
`min (n * 95 / 100) (n - 1)`, `min (n * 99 / 100) (n - 1)`. -/
def latencyPercentiles (entries : List AuditEntry) : LatencyStats :=
  let durations := latencyDurations entries
  if durations.isEmpty then { p50 := 0, p95 := 0, p99 := 0, count := 0 }
  else
    let sorted := sortAsc durations
    let n := sorted.length
    { p50 := sorted.getD (n * 50 / 100) 0,
      p95 := sorted.getD (min (n * 95 / 100) (n - 1)) 0,
      p99 := sorted.getD (min (n * 99 / 100) (n - 1)) 0,
      count := n }

/-! ### Tool SDK and built-in tools — `src/contracts/tool_sdk.py`,
`src/runtime/tools/` -/

/-- `contracts/tool_sdk.py::ToolOutput`. -/
structure ToolOutput where
  call_id : String
  tool_name : String
  result : JVal := .null
  error : Option String := none
  success : Bool := true
  deriving Repr

/-- `contracts/tool_sdk.py::ToolContext` together with the
`manifest_data_paths` dictionary the router populates (lines 140-157 of
`tool_router.py`).  `max_rows`/`max_bytes` use `none` for a stored
Python `None`. -/
structure ToolCtx where
  request_id : String
  app_name : String := ""
  policy_mode : String := "local_only"
  sqlite_allow : List String := []
  fs_allow_read : List String := []
  fs_allow_write : List String := []
  max_rows : Option ℕ := some 100
  max_bytes : Option ℕ := some 65536
  vector_allow : List String := []
  vector_allow_write : List String := []
  vector_backend : String := "chroma"
  default_top_k : ℕ := 10
  deriving Repr

/-- `runtime/tools/sql_query.py::SqlQueryTool.run`.  The SQLite layer is
abstracted as `db`: the outcome of `connect(..., mode=ro)` plus
`execute(query)`, giving either a raised exception message (read-only
rejections included) or the column names and the full underlying row
stream of the statement; `fetchmany(max_rows + 1)` is `List.take` on
that stream. -/
def sqlQueryRun (ctx : ToolCtx) (db_path query : String)
    (db : Except String (List String × List (List JVal))) : ToolOutput :=
  let call_id := ctx.request_id
  let resolved := resolvePath db_path
  if !(ctx.sqlite_allow.any (fun a => resolved = resolvePath a)) then
    { call_id, tool_name := "sql_query",
      error := some ("Database path not allowed: " ++ db_path), success := false }
  else
    match ctx.max_rows with
    | none =>
        -- a stored max_rows of None makes `max_rows + 1` raise TypeError,
        -- which the surrounding `except Exception` turns into an error output
        { call_id, tool_name := "sql_query",
          error := some "unsupported operand type for +: NoneType and int",
          success := false }
    | some max_rows =>
        match db with
        | .error exc =>
            { call_id, tool_name := "sql_query", error := some exc, success := false }
        | .ok (columns, rows) =>
            let all_rows := rows.take (max_rows + 1)
            let truncated := decide (all_rows.length > max_rows)
            { call_id, tool_name := "sql_query",
              result := .obj [
                ("columns", .arr (columns.map .str)),
                ("rows", .arr ((all_rows.take max_rows).map .arr)),
                ("truncated", .bool truncated)] }

/-- Character-list core of Python `str.startswith`. -/
def charsStartWith : List Char → List Char → Bool
  | [], _ => true
  | _ :: _, [] => false
  | p :: ps, c :: cs => p = c && charsStartWith ps cs

/-- Python `s.startswith(pre)`. -/
def strStartsWith (s pre : String) : Bool :=
  charsStartWith pre.data s.data

/-- `runtime/tools/read_file.py::ReadFileTool.run`.  The filesystem is
abstracted as `fs`: reading a resolved path either raises or returns the
file content (bytes embedded as a string of one-byte characters, under
which the lenient decode is the identity).  A stored `max_bytes` of
`None` slices as `[:None]`, i.e. no truncation. -/
def readFileRun (ctx : ToolCtx) (path : String)
    (fs : String → Except String String) : ToolOutput :=
  let call_id := ctx.request_id
  let resolved := resolvePath path
  if !(ctx.fs_allow_read.any (fun pre => strStartsWith resolved (resolvePath pre))) then
    { call_id, tool_name := "read_file",
      error := some ("Path not allowed: " ++ path), success := false }
  else
    match fs resolved with
    | .error exc =>
        { call_id, tool_name := "read_file", error := some exc, success := false }
    | .ok content =>
        let sliced := match ctx.max_bytes with
          | none => content
          | some max_bytes => String.mk (content.data.take max_bytes)
        { call_id, tool_name := "read_file", result := .str sliced }

/-- `runtime/tools/write_file.py::WriteFileTool.run`.  `fsw` abstracts
`mkdir(parents=True) + write_text`; the second component of the result
records the write the tool performed (resolved path and content), if
any.  Content length models `len(content.encode())` (ASCII model).
A stored `max_bytes` of `None` makes the `>` comparison raise TypeError
outside any `try`, so the call itself fails — embedded as
`Except.error`. -/
def writeFileRun (ctx : ToolCtx) (path content : String)
    (fsw : String → String → Except String Unit) :
    Except String (ToolOutput × Option (String × String)) :=
  let call_id := ctx.request_id
  let resolved := resolvePath path
  if !(ctx.fs_allow_write.any (fun pre => strStartsWith resolved (resolvePath pre))) then
    .ok ({ call_id, tool_name := "write_file",
           error := some ("Path not allowed: " ++ path), success := false }, none)
  else
    match ctx.max_bytes with
    | none => .error "unsupported comparison between int and NoneType"
    | some max_bytes =>
        if content.length > max_bytes then
          .ok ({ call_id, tool_name := "write_file",
                 error := some ("Content exceeds max_bytes limit (" ++ toString max_bytes ++ ")"),
                 success := false }, none)
        else
          match fsw resolved content with
          | .error exc =>
              .ok ({ call_id, tool_name := "write_file",
                     error := some exc, success := false }, some (resolved, content))
          | .ok _ =>
              .ok ({ call_id, tool_name := "write_file",
                     result := .obj [("status", .str "ok"),
                                     ("bytes_written", .num content.length)] },
                   some (resolved, content))

/-- A backend call made by `vector_search`: an embedding request or a
similarity search. -/
inductive VSCall where
  | embed : String → VSCall
  | search : String → List ℚ → ℕ → VSCall
  deriving Repr

/-- Python truthiness of an optional string argument (`not query`). -/
def optStrTruthy : Option String → Bool
  | none => false
  | some s => !s.isEmpty

/-- Python truthiness of an optional vector argument (`not query_vector`). -/
def optVecTruthy : Option (List ℚ) → Bool
  | none => false
  | some v => !v.isEmpty

/-- `runtime/tools/vector_search.py::VectorSearchTool.run`.  The
embedding and vector adapters are abstracted as optional functions
(`none` models an unconfigured adapter); `Except.error` models a raised
exception inside the corresponding `try`.  The second component records
every backend call the tool performed, in order. -/
def vectorSearchRun (ctx : ToolCtx)
    (embedding : Option (String → Except String (List (List ℚ))))
    (vector : Option (String → List ℚ → ℕ → Except String (List JVal)))
    (collection : String) (query : Option String)
    (query_vector : Option (List ℚ)) (top_k : Option ℕ := none) :
    ToolOutput × List VSCall :=
  let call_id := ctx.request_id
  let topK := top_k.getD ctx.default_top_k
  if !(ctx.vector_allow.any (fun pattern => fnmatch collection pattern)) then
    ({ call_id, tool_name := "vector_search",
       error := some ("Collection not allowed: " ++ collection), success := false }, [])
  else if !optStrTruthy query && !optVecTruthy query_vector then
    ({ call_id, tool_name := "vector_search",
       error := some "Either \x27query\x27 or \x27query_vector\x27 must be provided.",
       success := false }, [])
  else
    match vector with
    | none =>
        ({ call_id, tool_name := "vector_search",
           error := some "Vector database adapter not configured.",
           success := false }, [])
    | some searchFn =>
        let embedStep : Except (ToolOutput × List VSCall) (List ℚ × List VSCall) :=
          if optStrTruthy query && !optVecTruthy query_vector then
            match embedding with
            | none =>
                .error ({ call_id, tool_name := "vector_search",
                          error := some "Embedding adapter not configured; provide query_vector instead.",
                          success := false }, [])
            | some embedFn =>
                let q := query.getD ""
                match embedFn q with
                | .error exc =>
                    .error ({ call_id, tool_name := "vector_search",
                              error := some ("Embedding failed: " ++ exc),
                              success := false }, [.embed q])
                | .ok vectors =>
                    match vectors.head? with
                    | none =>
                        -- `vectors[0]` raises IndexError inside the same try
                        .error ({ call_id, tool_name := "vector_search",
                                  error := some "Embedding failed: list index out of range",
                                  success := false }, [.embed q])
                    | some v => .ok (v, [.embed q])
          else
            .ok (query_vector.getD [], [])
        match embedStep with
        | .error out => out
        | .ok (vec, calls) =>
            match searchFn collection vec topK with
            | .error exc =>
                ({ call_id, tool_name := "vector_search",
                   error := some ("Search failed: " ++ exc), success := false },
                 calls ++ [.search collection vec topK])
            | .ok results =>
                ({ call_id, tool_name := "vector_search",
                   result := .obj [("results", .arr results),
                                   ("count", .num results.length)] },
                 calls ++ [.search collection vec topK])

/-! ### API message forms — `src/contracts/api.py` -/

/-- `contracts/api.py::Role`. -/
inductive Role where
  | system : Role
  | user : Role
  | assistant : Role
  | tool : Role
  deriving Repr, DecidableEq

/-- `contracts/api.py::ToolCallFunction`.  `arguments` is a JSON-encoded
string in the source; the embedding carries the outcome of
`json.loads(arguments)` directly: `some obj` for a string decoding to
the JSON object `obj`, `none` for a string raising `JSONDecodeError`. -/
structure ToolCallFunction where
  name : String
  argumentsParsed : Option JObj
  deriving Repr

/-- `contracts/api.py::ToolCall`. -/
structure ToolCall where
  id : String
  type : String := "function"
  function : ToolCallFunction
  deriving Repr

/-- `contracts/api.py::Message`.  A Python `tool_calls` of `None`
collapses to the empty list (both are falsy where the router tests
them). -/
structure Message where
  role : Role
  content : Option String := none
  tool_calls : List ToolCall := []
  tool_call_id : Option String := none
  deriving Repr

/-- `contracts/api.py::ChatRequest` (the fields the router reads). -/
structure ChatRequest where
  model : String := "default"
  messages : List Message
  deriving Repr

/-- `contracts/api.py::TraceMeta`. -/
structure TraceMeta where
  request_id : String
  tools_used : List String := []
  tables_queried : List JVal := []
  policy_mode : String := "local_only"
  model : String := ""
  deriving Repr

/-! ### Tool router — `src/runtime/tool_router.py` -/

/-- `tool_router.py::MAX_ITERATIONS`. -/
def MAX_ITERATIONS : ℕ := 5

/-- A registered tool implementation as the router sees it:
`tool.run(ctx, args)`, with a raised exception embedded as
`Except.error`.  The registry is a name → implementation map;
`none` models the `KeyError` of an unknown tool. -/
def ToolImpl : Type := ToolCtx → JObj → Except String ToolOutput

/-- The mutable state of one `ToolRouter.run` invocation: the message
list, the audit log so far, the `tools_used` and `tables_queried`
accumulators, the last model reply, plus two observers — the number of
model-adapter calls made and the names of tools whose `run` was actually
invoked. -/
structure RunState where
  messages : List Message
  log : List AuditEntry
  tools_used : List String
  tables_queried : List JVal
  lastMessage : Message
  adapterCalls : ℕ
  invoked : List String
  deriving Repr

/-- The `manifest_data_paths` context built at lines 140-157 of
`tool_router.py`. -/
def buildCtx (manifest : Manifest) (request_id : String) : ToolCtx :=
  let sql_config := (manifest.tools.find? (fun kv => kv.1 = "sql_query")).map (·.2)
  let read_config := (manifest.tools.find? (fun kv => kv.1 = "read_file")).map (·.2)
  { request_id,
    app_name := manifest.app.name,
    policy_mode := manifest.runtime.policy_mode.toValue,
    sqlite_allow := manifest.policy.data.sqlite.allow,
    fs_allow_read := manifest.policy.data.filesystem.allow_read,
    fs_allow_write := manifest.policy.data.filesystem.allow_write,
    max_rows := match sql_config with | some c => c.max_rows | none => some 100,
    max_bytes := match read_config with | some c => c.max_bytes | none => some 65536,
    vector_allow := manifest.policy.data.vector.allow,
    vector_allow_write := manifest.policy.data.vector.allow_write,
    vector_backend := manifest.vector_db.backend,
    default_top_k := manifest.vector_db.default_top_k }

/-- The policy check performed for one directive (line 98 of
`tool_router.py`): `check_tool` on the parsed `ToolInput` (arguments of
an undecodable JSON string fall back to the empty object). -/
def directiveDecision (manifest : Manifest) (tc : ToolCall) : PolicyDecision :=
  check_tool (some manifest)
    { tool_name := tc.function.name,
      arguments := tc.function.argumentsParsed.getD [],
      call_id := tc.id }

/-- The body of `for tc in last_message.tool_calls` in `ToolRouter.run`
(lines 86-202), one directive at a time. -/
def processDirective (manifest : Manifest) (registry : String → Option ToolImpl)
    (request_id model app_name policy_mode : String)
    (st : RunState) (tc : ToolCall) : RunState :=
  let tool_name := tc.function.name
  let args : JObj := tc.function.argumentsParsed.getD []
  let decision := directiveDecision manifest tc
  if decision.verdict = .deny then
    { st with
      log := st.log ++ [{ request_id, event := .policy_block, app := app_name,
                          model, policy_mode,
                          detail := [("tool", .str tool_name),
                                     ("rule", .str decision.rule),
                                     ("reason", .str decision.reason)] }],
      messages := st.messages ++ [{ role := .tool,
                                    content := some (jdump (.obj [("error",
                                      .str ("Policy denied: " ++ decision.reason))])),
                                    tool_call_id := some tc.id }] }
  else
    let ctx := buildCtx manifest request_id
    let outcome : String × List String :=
      match registry tool_name with
      | none => (jdump (.obj [("error", .str ("Unknown tool: " ++ tool_name))]), [])
      | some tool =>
          match tool ctx args with
          | .error exc => (jdump (.obj [("error", .str exc)]), [tool_name])
          | .ok output =>
              match output.error with
              | some err =>
                  (jdump (.obj [("error", .str err), ("success", .bool false)]),
                   [tool_name])
              | none =>
                  (jdump (.obj [("result", output.result),
                                ("success", .bool output.success)]),
                   [tool_name])
    let table := jGetD args "table" (.str "")
    let tables :=
      if tool_name = "sql_query" &&
          (jTruthy table && !(st.tables_queried.any (jeqb table))) then
        st.tables_queried ++ [table]
      else st.tables_queried
    { st with
      log := st.log
        ++ [{ request_id, event := .tool_call, app := app_name, model, policy_mode,
              detail := [("tool", .str tool_name), ("arguments", .obj args)] }]
        ++ [{ request_id, event := .tool_result, app := app_name, model, policy_mode,
              detail := [("tool", .str tool_name), ("call_id", .str tc.id)] }],
      tools_used := st.tools_used ++ [tool_name],
      tables_queried := tables,
      messages := st.messages ++ [{ role := .tool, content := some outcome.1,
                                    tool_call_id := some tc.id }],
      invoked := st.invoked ++ outcome.2 }

/-- The `for _ in range(MAX_ITERATIONS)` loop of `ToolRouter.run`
(lines 77-202): call the adapter, stop when the reply carries no tool
calls, otherwise append the assistant message and process each
directive in order. -/
def runLoop (adapter : List Message → String → Message) (manifest : Manifest)
    (registry : String → Option ToolImpl)
    (request_id model app_name policy_mode : String) :
    ℕ → RunState → RunState
  | 0, st => st
  | fuel + 1, st =>
    let msg := adapter st.messages model
    let st1 := { st with lastMessage := msg, adapterCalls := st.adapterCalls + 1 }
    if msg.tool_calls.isEmpty then st1
    else
      let st2 := { st1 with messages := st1.messages ++ [msg] }
      let st3 := msg.tool_calls.foldl
        (processDirective manifest registry request_id model app_name policy_mode) st2
      runLoop adapter manifest registry request_id model app_name policy_mode fuel st3

/-- `ToolRouter.run` (lines 45-214): the adapter is an abstract
deterministic function of the message list and model id; the fresh
`request_id` (a uuid) is passed in; audit timestamps are wall-clock and
irrelevant to every property below, fixed at `0` in the entries the
router writes.  Returns the final run state, whose `log` is the full
audit trail of the request. -/
def routerRun (adapter : List Message → String → Message) (manifest : Manifest)
    (registry : String → Option ToolImpl) (request_id : String)
    (request : ChatRequest) : RunState :=
  let model := if manifest.models.default.isEmpty then request.model
               else manifest.models.default
  let policy_mode := manifest.runtime.policy_mode.toValue
  let app_name := manifest.app.name
  let start_entry : AuditEntry :=
    { request_id, event := .request_start, app := app_name, model, policy_mode }
  let messages := match request.messages with
    | [] => []
    | m0 :: rest =>
        if m0.role ≠ .system then
          { role := .system,
            content := some ("You are " ++ app_name ++ ", a DomeKit-powered assistant.")
            : Message } :: m0 :: rest
        else m0 :: rest
  let st0 : RunState :=
    { messages, log := [start_entry], tools_used := [], tables_queried := [],
      lastMessage := { role := .assistant, content := some "" },
      adapterCalls := 0, invoked := [] }
  let stF := runLoop adapter manifest registry request_id model app_name policy_mode
    MAX_ITERATIONS st0
  { stF with
    log := stF.log ++ [{ request_id, event := .request_end, app := app_name, model,
                         policy_mode,
                         detail := [("tools_used", .arr (stF.tools_used.map .str))] }] }

/-- The `TraceMeta` built at lines 216-222 of `tool_router.py` from the
final run state. -/
def routerTrace (manifest : Manifest) (request_id : String)
    (request : ChatRequest) (st : RunState) : TraceMeta :=
  let model := if manifest.models.default.isEmpty then request.model
               else manifest.models.default
  { request_id, tools_used := st.tools_used, tables_queried := st.tables_queried,
    policy_mode := manifest.runtime.policy_mode.toValue, model }

/-! ### Manifest loader — `src/runtime/manifest_loader.py` and the
pydantic validation of `src/contracts/manifest.py`

The pydantic models in `contracts/manifest.py` declare no
`model_config`, so they run with pydantic's default `extra` policy:
extra keys are *ignored*, in the root model and in every nested
section model alike.  The validators below mirror that: each looks up
exactly its declared fields and never enumerates the remaining keys.
Numeric caps are validated as non-negative integers (every manifest in
the repository declares them so). -/

/-- Validate a `str` field. -/
def vStr : JVal → Except String String
  | .str s => .ok s
  | _ => .error "str expected"

/-- Validate a `bool` field. -/
def vBool : JVal → Except String Bool
  | .bool b => .ok b
  | _ => .error "bool expected"

/-- Validate an `int` field. -/
def vInt : JVal → Except String Int
  | .num q => if q.den = 1 then .ok q.num else .error "int expected"
  | _ => .error "int expected"

/-- Validate a non-negative `int` field. -/
def vNat : JVal → Except String ℕ
  | .num q => if q.den = 1 && 0 ≤ q.num then .ok q.num.toNat else .error "int expected"
  | _ => .error "int expected"

/-- Validate an `int | None` field. -/
def vOptNat : JVal → Except String (Option ℕ)
  | .null => .ok none
  | v => (vNat v).map some

/-- Validate a `list[str]` field. -/
def vListStr : JVal → Except String (List String)
  | .arr xs => xs.mapM vStr
  | _ => .error "list of str expected"

/-- Validate a `PolicyMode` enum value. -/
def vPolicyMode : JVal → Except String PolicyMode
  | .str "local_only" => .ok .local_only
  | .str "developer" => .ok .developer
  | _ => .error "invalid policy_mode"

/-- A required model field: absent → validation error. -/
def reqField (d : JObj) (k : String) (v : JVal → Except String α) :
    Except String α :=
  match jGet d k with
  | none => .error ("field required: " ++ k)
  | some x => v x

/-- A defaulted model field: absent → the declared default. -/
def optField (d : JObj) (k : String) (v : JVal → Except String α) (dflt : α) :
    Except String α :=
  match jGet d k with
  | none => .ok dflt
  | some x => v x

/-- Validation of `AppInfo`. -/
def validateAppInfo : JVal → Except String AppInfo
  | .obj d => do
      let name ← reqField d "name" vStr
      let version ← optField d "version" vStr "0.0.1"
      .ok { name, version }
  | _ => .error "AppInfo: mapping expected"

/-- Validation of `RuntimeConfig`. -/
def validateRuntimeConfig : JVal → Except String RuntimeConfig
  | .obj d => do
      let base_url ← optField d "base_url" vStr "http://127.0.0.1:8080"
      let policy_mode ← optField d "policy_mode" vPolicyMode .local_only
      .ok { base_url, policy_mode }
  | _ => .error "RuntimeConfig: mapping expected"

/-- Validation of `NetworkPolicy`. -/
def validateNetworkPolicy : JVal → Except String NetworkPolicy
  | .obj d => do
      let outbound ← optField d "outbound" vStr "deny"
      let allow_domains ← optField d "allow_domains" vListStr []
      .ok { outbound, allow_domains }
  | _ => .error "NetworkPolicy: mapping expected"

/-- Validation of `DataSqlitePolicy`. -/
def validateDataSqlitePolicy : JVal → Except String DataSqlitePolicy
  | .obj d => do
      let allow ← optField d "allow" vListStr []
      .ok { allow }
  | _ => .error "DataSqlitePolicy: mapping expected"

/-- Validation of `DataFilesystemPolicy`. -/
def validateDataFilesystemPolicy : JVal → Except String DataFilesystemPolicy
  | .obj d => do
      let allow_read ← optField d "allow_read" vListStr []
      let allow_write ← optField d "allow_write" vListStr []
      .ok { allow_read, allow_write }
  | _ => .error "DataFilesystemPolicy: mapping expected"

/-- Validation of `DataVectorPolicy`. -/
def validateDataVectorPolicy : JVal → Except String DataVectorPolicy
  | .obj d => do
      let allow ← optField d "allow" vListStr []
      let allow_write ← optField d "allow_write" vListStr []
      .ok { allow, allow_write }
  | _ => .error "DataVectorPolicy: mapping expected"

/-- Validation of `DataPolicy`. -/
def validateDataPolicy : JVal → Except String DataPolicy
  | .obj d => do
      let sqlite ← optField d "sqlite" validateDataSqlitePolicy {}
      let filesystem ← optField d "filesystem" validateDataFilesystemPolicy {}
      let vector ← optField d "vector" validateDataVectorPolicy {}
      .ok { sqlite, filesystem, vector }
  | _ => .error "DataPolicy: mapping expected"

/-- Validation of `ToolsPolicy`. -/
def validateToolsPolicy : JVal → Except String ToolsPolicy
  | .obj d => do
      let allow ← optField d "allow" vListStr []
      .ok { allow }
  | _ => .error "ToolsPolicy: mapping expected"

/-- Validation of `Policy`. -/
def validatePolicy : JVal → Except String Policy
  | .obj d => do
      let network ← optField d "network" validateNetworkPolicy {}
      let tools ← optField d "tools" validateToolsPolicy {}
      let data ← optField d "data" validateDataPolicy {}
      .ok { network, tools, data }
  | _ => .error "Policy: mapping expected"

/-- Validation of `ModelEntry`. -/
def validateModelEntry : JVal → Except String ModelEntry
  | .obj d => do
      let id ← reqField d "id" vStr
      let context_window ← optField d "context_window" vInt 8192
      .ok { id, context_window }
  | _ => .error "ModelEntry: mapping expected"

/-- Validation of a `dict[str, ModelEntry]` field. -/
def vModelMap : JVal → Except String (List (String × ModelEntry))
  | .obj fields => fields.mapM (fun kv => (validateModelEntry kv.2).map (fun e => (kv.1, e)))
  | _ => .error "mapping expected"

/-- Validation of `ModelsConfig`. -/
def validateModelsConfig : JVal → Except String ModelsConfig
  | .obj d => do
      let backend ← optField d "backend" vStr "ollama"
      let dflt ← optField d "default" vStr ""
      let map ← optField d "map" vModelMap []
      .ok { backend, default := dflt, map }
  | _ => .error "ModelsConfig: mapping expected"

/-- Validation of `ToolConfig`. -/
def validateToolConfig : JVal → Except String ToolConfig
  | .obj d => do
      let type_ ← optField d "type" vStr "builtin"
      let read_only ← optField d "read_only" vBool false
      let max_rows ← optField d "max_rows" vOptNat none
      let max_bytes ← optField d "max_bytes" vOptNat none
      .ok { type := type_, read_only, max_rows, max_bytes }
  | _ => .error "ToolConfig: mapping expected"

/-- Validation of the `dict[str, ToolConfig]` field. -/
def vToolsMap : JVal → Except String (List (String × ToolConfig))
  | .obj fields => fields.mapM (fun kv => (validateToolConfig kv.2).map (fun c => (kv.1, c)))
  | _ => .error "mapping expected"

/-- Validation of `AuditConfig`. -/
def validateAuditConfig : JVal → Except String AuditConfig
  | .obj d => do
      let path ← optField d "path" vStr "audit.jsonl"
      let redact_prompt ← optField d "redact_prompt" vBool false
      let redact_tool_outputs ← optField d "redact_tool_outputs" vBool false
      .ok { path, redact_prompt, redact_tool_outputs }
  | _ => .error "AuditConfig: mapping expected"

/-- Validation of `EmbeddingConfig`. -/
def validateEmbeddingConfig : JVal → Except String EmbeddingConfig
  | .obj d => do
      let backend ← optField d "backend" vStr "ollama"
      let model ← optField d "model" vStr "nomic-embed-text"
      .ok { backend, model }
  | _ => .error "EmbeddingConfig: mapping expected"

/-- Validation of `VectorConfig`. -/
def validateVectorConfig : JVal → Except String VectorConfig
  | .obj d => do
      let backend ← optField d "backend" vStr "chroma"
      let default_top_k ← optField d "default_top_k" vNat 10
      .ok { backend, default_top_k }
  | _ => .error "VectorConfig: mapping expected"

/-- `Manifest(**data)`: validation of the root model from the parsed
mapping. -/
def validateManifest (d : JObj) : Except String Manifest := do
  let app ← reqField d "app" validateAppInfo
  let runtime ← optField d "runtime" validateRuntimeConfig {}
  let policy ← optField d "policy" validatePolicy {}
  let models ← optField d "models" validateModelsConfig {}
  let tools ← optField d "tools" vToolsMap []
  let audit ← optField d "audit" validateAuditConfig {}
  let embedding ← optField d "embedding" validateEmbeddingConfig {}
  let vector_db ← optField d "vector_db" validateVectorConfig {}
  .ok { app, runtime, policy, models, tools, audit, embedding, vector_db }

/-- `runtime/manifest_loader.py::load_manifest`, applied to the result
of `yaml.safe_load` (file lookup and YAML lexing are environment
concerns outside the embedding): a non-mapping document is rejected,
a mapping is validated as `Manifest(**data)`. -/
def loadManifest : JVal → Except String Manifest
  | .obj d => validateManifest d
  | _ => .error "Manifest must be a YAML mapping"

/-! ## Theorems -/

/-! ### C2 — `check_tool` -/

/-- C2: `check_tool` allows everything with rule `developer_mode` when
the loaded manifest is in developer mode; in `local_only` mode it allows
exactly the members of `policy.tools.allow`; and with no manifest loaded
it denies with rule `no_manifest`. -/
theorem check_tool_spec :
    (∀ ti : ToolInput, check_tool none ti =
      { verdict := .deny, rule := "no_manifest", reason := "No manifest loaded" }) ∧
    (∀ (m : Manifest) (ti : ToolInput), m.runtime.policy_mode = .developer →
      (check_tool (some m) ti).verdict = .allow ∧
      (check_tool (some m) ti).rule = "developer_mode") ∧
    (∀ (m : Manifest) (ti : ToolInput), m.runtime.policy_mode = .local_only →
      ((check_tool (some m) ti).verdict = .allow ↔
        ti.tool_name ∈ m.policy.tools.allow)) := by
  refine ⟨fun ti => rfl, ?_, ?_⟩
  · intro m ti h
    simp [check_tool, engineMode, h]
  · intro m ti h
    simp only [check_tool, engineMode, h]
    by_cases hm : ti.tool_name ∈ m.policy.tools.allow <;> simp [hm]

/-- A developer-mode manifest used in witnesses. -/
def mDev : Manifest :=
  { app := { name := "a" }, runtime := { policy_mode := .developer } }

/-- A local-only manifest allowing only `read_file`, used in witnesses. -/
def mLoc : Manifest :=
  { app := { name := "a" }, policy := { tools := { allow := ["read_file"] } } }

/-- Witness for C2 at concrete inputs. -/
theorem check_tool_spec_witness :
    check_tool none { tool_name := "x", arguments := [], call_id := "c" } =
      { verdict := .deny, rule := "no_manifest", reason := "No manifest loaded" } ∧
    ((check_tool (some mDev) { tool_name := "x", arguments := [], call_id := "c" }).verdict = .allow ∧
     (check_tool (some mDev) { tool_name := "x", arguments := [], call_id := "c" }).rule = "developer_mode") ∧
    ((check_tool (some mLoc) { tool_name := "read_file", arguments := [], call_id := "c" }).verdict = .allow ↔
      "read_file" ∈ mLoc.policy.tools.allow) :=
  ⟨check_tool_spec.1 _, check_tool_spec.2.1 mDev _ rfl, check_tool_spec.2.2 mLoc _ rfl⟩

/-! ### C4 — `check_data_access` and canonicalization -/

/-- A local-only manifest whose SQLite allow list holds the canonical
path `/data/app.db`. -/
def mSqlite : Manifest :=
  { app := { name := "a" },
    policy := { data := { sqlite := { allow := ["/data/app.db"] } } } }

/-- C4 counterexample: for the non-canonical path
`/data/../data/app.db`, whose canonicalized form `/data/app.db` appears
verbatim in `policy.data.sqlite.allow`, `check_data_access` nevertheless
returns deny — the engine compares the raw path, not its canonicalized
form, so the claimed iff fails at this input. -/
theorem check_data_access_raw_path_cex :
    resolvePath "/data/../data/app.db" = "/data/app.db" ∧
    "/data/app.db" ∈ mSqlite.policy.data.sqlite.allow ∧
    mSqlite.runtime.policy_mode = .local_only ∧
    (check_data_access (some mSqlite) "/data/../data/app.db" "read").verdict = .deny := by
  refine ⟨by decide, by decide, rfl, by decide⟩

/-- C4 amended: in `local_only` mode with a manifest loaded,
`check_data_access path "read"` allows iff the path *as given* appears
verbatim in `policy.data.sqlite.allow` or matches some glob in
`policy.data.filesystem.allow_read`; any access string outside
read/write/vector_read/vector_write yields deny with rule
`data.unknown_access`. -/
theorem check_data_access_read_spec (m : Manifest) (path : String)
    (hmode : m.runtime.policy_mode = .local_only) :
    ((check_data_access (some m) path "read").verdict = .allow ↔
      (path ∈ m.policy.data.sqlite.allow ∨
        m.policy.data.filesystem.allow_read.any (fun pattern => fnmatch path pattern))) ∧
    (∀ access : String,
      access ∉ (["read", "write", "vector_read", "vector_write"] : List String) →
      check_data_access (some m) path access =
        { verdict := .deny, rule := "data.unknown_access",
          reason := "Unknown access type \x27" ++ access ++ "\x27" }) := by
  constructor
  · simp only [check_data_access, engineMode, hmode]
    by_cases hs : path ∈ m.policy.data.sqlite.allow
    · simp [hs]
    · cases hf : m.policy.data.filesystem.allow_read.find?
        (fun pattern => fnmatch path pattern) with
      | none =>
          simp [hs, hf]
          rw [List.find?_eq_none] at hf
          intro x hx
          exact Bool.eq_false_iff.mpr (hf x hx)
      | some pattern =>
          simp [hs, hf]
          exact ⟨pattern, List.mem_of_find?_eq_some hf, List.find?_some hf⟩
  · intro access hacc
    simp only [List.mem_cons, List.mem_singleton, not_or] at hacc
    obtain ⟨h1, h2, h3, h4⟩ := hacc
    simp [check_data_access, engineMode, hmode, h1, h2, h3, h4]

/-- Witness for C4's amended statement at concrete inputs. -/
theorem check_data_access_read_spec_witness :
    mSqlite.runtime.policy_mode = .local_only ∧
    ((check_data_access (some mSqlite) "/data/app.db" "read").verdict = .allow ↔
      ("/data/app.db" ∈ mSqlite.policy.data.sqlite.allow ∨
        mSqlite.policy.data.filesystem.allow_read.any
          (fun pattern => fnmatch "/data/app.db" pattern))) ∧
    check_data_access (some mSqlite) "/data/app.db" "execute" =
      { verdict := .deny, rule := "data.unknown_access",
        reason := "Unknown access type \x27execute\x27" } :=
  ⟨rfl, (check_data_access_read_spec mSqlite "/data/app.db" rfl).1,
   (check_data_access_read_spec mSqlite "/data/app.db" rfl).2 "execute" (by decide)⟩

/-! ### C5 — audit reader failure semantics -/

/-- A well-formed sample entry used in the C5 counterexample. -/
def sampleEntry : AuditEntry := { request_id := "r1", event := .request_start }

/-- `readLines` fails as soon as any malformed line is hit. -/
theorem readLines_error_of_mem {ls : List AuditLine}
    (h : AuditLine.malformed ∈ ls) : readLines ls = .error "json decode error" := by
  induction ls with
  | nil => simp at h
  | cons l rest ih =>
    cases l with
    | blank =>
        have : AuditLine.malformed ∈ rest := by simpa using h
        simpa [readLines] using ih this
    | malformed => rfl
    | entry e =>
        have : AuditLine.malformed ∈ rest := by simpa using h
        simp [readLines, ih this, Except.map]

/-- `readLines` succeeds exactly on files with no malformed line. -/
theorem readLines_ok_iff (ls : List AuditLine) :
    (∃ es, readLines ls = .ok es) ↔ AuditLine.malformed ∉ ls := by
  induction ls with
  | nil => simp [readLines]
  | cons l rest ih =>
    cases l with
    | blank => simpa [readLines] using ih
    | malformed => simp [readLines]
    | entry e =>
        rw [show readLines (.entry e :: rest) = (readLines rest).map (fun es => e :: es)
          from rfl]
        cases h : readLines rest with
        | error msg =>
            have : AuditLine.malformed ∈ rest := by
              by_contra hmem
              obtain ⟨es, hes⟩ := ih.mpr hmem
              rw [h] at hes
              exact Except.noConfusion hes
            simp [Except.map, this]
        | ok es =>
            have : AuditLine.malformed ∉ rest := ih.mp ⟨es, h⟩
            simp [Except.map, this]

/-- C5 counterexample: on a log whose final line is malformed, the
reader raises (returns an error) instead of returning the preceding
entries — the trailing malformed line is fatal, not absent. -/
theorem readAll_trailing_malformed_cex :
    readAll (some [.entry sampleEntry, .malformed]) = .error "json decode error" ∧
    readAll (some [.entry sampleEntry, .malformed]) ≠ .ok [sampleEntry] := by
  refine ⟨rfl, ?_⟩
  intro h
  rw [show readAll (some [.entry sampleEntry, .malformed]) =
    .error "json decode error" from rfl] at h
  exact Except.noConfusion h

/-- C5 amended: the reader helpers treat a missing file as an empty log,
and *any* malformed line — trailing or interior — is fatal to the scan:
the scan succeeds exactly when no malformed line is present, and the
helpers propagate the failure. -/
theorem audit_reader_failure_semantics :
    (readAll none = .ok []) ∧
    (∀ ls : List AuditLine, (∃ es, readAll (some ls) = .ok es) ↔
      AuditLine.malformed ∉ ls) ∧
    (∀ rid, queryByRequest none rid = .ok []) ∧
    (∀ ev lim, queryByEvent none ev lim = .ok []) ∧
    (∀ n, tailEntries none n = .ok []) ∧
    (∀ lim off, queryFiltered none none none none none lim off = .ok ([], 0)) ∧
    (∀ (ls : List AuditLine) (rid : String), AuditLine.malformed ∈ ls →
      queryByRequest (some ls) rid = .error "json decode error") := by
  refine ⟨rfl, ?_, fun rid => rfl, ?_, ?_, ?_, ?_⟩
  · intro ls
    exact readLines_ok_iff ls
  · intro ev lim
    simp [queryByEvent, readAll, readLines, lastN, Except.map]
  · intro n
    simp [tailEntries, readAll, readLines, lastN, Except.map]
  · intro lim off
    simp [queryFiltered, readAll, readLines, sortByTsDesc, Except.map]
  · intro ls rid h
    simp [queryByRequest, readAll, readLines_error_of_mem h, Except.map]

/-- Witness for C5's amended statement at concrete inputs. -/
theorem audit_reader_failure_semantics_witness :
    ((∃ es, readAll (some [.entry sampleEntry]) = .ok es) ↔
      AuditLine.malformed ∉ [AuditLine.entry sampleEntry]) ∧
    queryByRequest (some [.malformed]) "r1" = .error "json decode error" :=
  ⟨audit_reader_failure_semantics.2.1 _,
   audit_reader_failure_semantics.2.2.2.2.2.2 [.malformed] "r1" (by simp)⟩

/-! ### C7 — latency percentiles -/

/-- An audit log with ten paired `request.start`/`request.end` entries
whose durations are 1, 2, …, 10 seconds. -/
def latencyLog : List AuditEntry :=
  [ { ts := 0, request_id := "r0", event := .request_start },
    { ts := 1, request_id := "r0", event := .request_end },
    { ts := 100, request_id := "r1", event := .request_start },
    { ts := 102, request_id := "r1", event := .request_end },
    { ts := 200, request_id := "r2", event := .request_start },
    { ts := 203, request_id := "r2", event := .request_end },
    { ts := 300, request_id := "r3", event := .request_start },
    { ts := 304, request_id := "r3", event := .request_end },
    { ts := 400, request_id := "r4", event := .request_start },
    { ts := 405, request_id := "r4", event := .request_end },
    { ts := 500, request_id := "r5", event := .request_start },
    { ts := 506, request_id := "r5", event := .request_end },
    { ts := 600, request_id := "r6", event := .request_start },
    { ts := 607, request_id := "r6", event := .request_end },
    { ts := 700, request_id := "r7", event := .request_start },
    { ts := 708, request_id := "r7", event := .request_end },
    { ts := 800, request_id := "r8", event := .request_start },
    { ts := 809, request_id := "r8", event := .request_end },
    { ts := 900, request_id := "r9", event := .request_start },
    { ts := 910, request_id := "r9", event := .request_end } ]

/-- C7 counterexample: on the ten durations 1..10 the code reports
`p50 = durations[int(10 * 0.50)] = durations[5] = 6`, not 5 as the claim
(and the spec example) state. -/
theorem latency_p50_cex :
    (latencyPercentiles latencyLog).p50 = 6 ∧
    (latencyPercentiles latencyLog).p50 ≠ 5 := by
  refine ⟨by decide, by decide⟩

/-- C7 amended: on the ten durations 1..10 the latency metric returns
`p50 = 6` (the sorted durations at index `floor(10 * 0.50) = 5`),
`p95 = 10`, `p99 = 10` (indices clamped to `n - 1 = 9`), and
`count = 10`. -/
theorem latency_percentiles_amended :
    latencyPercentiles latencyLog = { p50 := 6, p95 := 10, p99 := 10, count := 10 } ∧
    sortAsc (latencyDurations latencyLog) = [1, 2, 3, 4, 5, 6, 7, 8, 9, 10] ∧
    (10 * 50 / 100 : ℕ) = 5 ∧ min (10 * 95 / 100) (10 - 1) = 9 ∧
    min (10 * 99 / 100) (10 - 1) = 9 := by
  refine ⟨by decide, by decide, by decide, by decide, by decide⟩

/-! ### C6 — unknown manifest keys -/

/-- Appending a binding for a different key does not change a lookup. -/
theorem jGet_append_ne {d : JObj} {k0 k : String} {v : JVal} (h : k0 ≠ k) :
    jGet (d ++ [(k, v)]) k0 = jGet d k0 := by
  unfold jGet
  rw [List.find?_append]
  have hnone : ([(k, v)].find? (fun kv => kv.1 = k0)) = none := by
    simp
    exact fun hh => h hh.symm
  rw [hnone]
  cases d.find? (fun kv => kv.1 = k0) <;> rfl

/-- Required-field validation ignores a binding for a different key. -/
theorem reqField_append {α} {d : JObj} {k0 k : String} {v : JVal}
    {f : JVal → Except String α} (h : k0 ≠ k) :
    reqField (d ++ [(k, v)]) k0 f = reqField d k0 f := by
  unfold reqField
  rw [jGet_append_ne h]

/-- Defaulted-field validation ignores a binding for a different key. -/
theorem optField_append {α} {d : JObj} {k0 k : String} {v : JVal}
    {f : JVal → Except String α} {dflt : α} (h : k0 ≠ k) :
    optField (d ++ [(k, v)]) k0 f dflt = optField d k0 f dflt := by
  unfold optField
  rw [jGet_append_ne h]

/-- C6 counterexample: a document whose `app` section carries the
unknown key `bogus` is *accepted* by the loader (pydantic's default
extra policy ignores it), not rejected with a structured error. -/
theorem loadManifest_unknown_key_accepted :
    loadManifest (.obj [("app", .obj [("name", .str "x"), ("bogus", .num 1)])]) =
      .ok { app := { name := "x" } } := rfl

/-- C6 amended: the loader ignores unknown keys *everywhere* — at top
level and inside every recognized section (`app`, `runtime`, `policy`,
`models`, `audit`, `embedding`, `vector_db`): appending an unrecognized
key to the document or to a section leaves validation unchanged. -/
theorem manifest_unknown_keys_ignored :
    (∀ (d : JObj) (k : String) (v : JVal),
      k ∉ (["app", "runtime", "policy", "models", "tools", "audit",
            "embedding", "vector_db"] : List String) →
      validateManifest (d ++ [(k, v)]) = validateManifest d) ∧
    (∀ (d : JObj) (k : String) (v : JVal),
      k ∉ (["name", "version"] : List String) →
      validateAppInfo (.obj (d ++ [(k, v)])) = validateAppInfo (.obj d)) ∧
    (∀ (d : JObj) (k : String) (v : JVal),
      k ∉ (["base_url", "policy_mode"] : List String) →
      validateRuntimeConfig (.obj (d ++ [(k, v)])) = validateRuntimeConfig (.obj d)) ∧
    (∀ (d : JObj) (k : String) (v : JVal),
      k ∉ (["network", "tools", "data"] : List String) →
      validatePolicy (.obj (d ++ [(k, v)])) = validatePolicy (.obj d)) ∧
    (∀ (d : JObj) (k : String) (v : JVal),
      k ∉ (["backend", "default", "map"] : List String) →
      validateModelsConfig (.obj (d ++ [(k, v)])) = validateModelsConfig (.obj d)) ∧
    (∀ (d : JObj) (k : String) (v : JVal),
      k ∉ (["path", "redact_prompt", "redact_tool_outputs"] : List String) →
      validateAuditConfig (.obj (d ++ [(k, v)])) = validateAuditConfig (.obj d)) ∧
    (∀ (d : JObj) (k : String) (v : JVal),
      k ∉ (["backend", "model"] : List String) →
      validateEmbeddingConfig (.obj (d ++ [(k, v)])) = validateEmbeddingConfig (.obj d)) ∧
    (∀ (d : JObj) (k : String) (v : JVal),
      k ∉ (["backend", "default_top_k"] : List String) →
      validateVectorConfig (.obj (d ++ [(k, v)])) = validateVectorConfig (.obj d)) := by
  refine ⟨?_, ?_, ?_, ?_, ?_, ?_, ?_, ?_⟩
  · intro d k v h
    simp only [List.mem_cons, not_or] at h
    obtain ⟨h1, h2, h3, h4, h5, h6, h7, h8, -⟩ := h
    simp only [validateManifest,
      reqField_append (show ("app" : String) ≠ k from fun hh => h1 hh.symm),
      optField_append (show ("runtime" : String) ≠ k from fun hh => h2 hh.symm),
      optField_append (show ("policy" : String) ≠ k from fun hh => h3 hh.symm),
      optField_append (show ("models" : String) ≠ k from fun hh => h4 hh.symm),
      optField_append (show ("tools" : String) ≠ k from fun hh => h5 hh.symm),
      optField_append (show ("audit" : String) ≠ k from fun hh => h6 hh.symm),
      optField_append (show ("embedding" : String) ≠ k from fun hh => h7 hh.symm),
      optField_append (show ("vector_db" : String) ≠ k from fun hh => h8 hh.symm)]
  · intro d k v h
    simp only [List.mem_cons, not_or] at h
    obtain ⟨h1, h2, -⟩ := h
    simp only [validateAppInfo,
      reqField_append (show ("name" : String) ≠ k from fun hh => h1 hh.symm),
      optField_append (show ("version" : String) ≠ k from fun hh => h2 hh.symm)]
  · intro d k v h
    simp only [List.mem_cons, not_or] at h
    obtain ⟨h1, h2, -⟩ := h
    simp only [validateRuntimeConfig,
      optField_append (show ("base_url" : String) ≠ k from fun hh => h1 hh.symm),
      optField_append (show ("policy_mode" : String) ≠ k from fun hh => h2 hh.symm)]
  · intro d k v h
    simp only [List.mem_cons, not_or] at h
    obtain ⟨h1, h2, h3, -⟩ := h
    simp only [validatePolicy,
      optField_append (show ("network" : String) ≠ k from fun hh => h1 hh.symm),
      optField_append (show ("tools" : String) ≠ k from fun hh => h2 hh.symm),
      optField_append (show ("data" : String) ≠ k from fun hh => h3 hh.symm)]
  · intro d k v h
    simp only [List.mem_cons, not_or] at h
    obtain ⟨h1, h2, h3, -⟩ := h
    simp only [validateModelsConfig,
      optField_append (show ("backend" : String) ≠ k from fun hh => h1 hh.symm),
      optField_append (show ("default" : String) ≠ k from fun hh => h2 hh.symm),
      optField_append (show ("map" : String) ≠ k from fun hh => h3 hh.symm)]
  · intro d k v h
    simp only [List.mem_cons, not_or] at h
    obtain ⟨h1, h2, h3, -⟩ := h
    simp only [validateAuditConfig,
      optField_append (show ("path" : String) ≠ k from fun hh => h1 hh.symm),
      optField_append (show ("redact_prompt" : String) ≠ k from fun hh => h2 hh.symm),
      optField_append (show ("redact_tool_outputs" : String) ≠ k from fun hh => h3 hh.symm)]
  · intro d k v h
    simp only [List.mem_cons, not_or] at h
    obtain ⟨h1, h2, -⟩ := h
    simp only [validateEmbeddingConfig,
      optField_append (show ("backend" : String) ≠ k from fun hh => h1 hh.symm),
      optField_append (show ("model" : String) ≠ k from fun hh => h2 hh.symm)]
  · intro d k v h
    simp only [List.mem_cons, not_or] at h
    obtain ⟨h1, h2, -⟩ := h
    simp only [validateVectorConfig,
      optField_append (show ("backend" : String) ≠ k from fun hh => h1 hh.symm),
      optField_append (show ("default_top_k" : String) ≠ k from fun hh => h2 hh.symm)]

/-- Witness for C6's amended statement at concrete inputs. -/
theorem manifest_unknown_keys_ignored_witness :
    validateManifest ([("app", .obj [("name", .str "x")])] ++ [("zzz", .null)]) =
      validateManifest [("app", .obj [("name", .str "x")])] ∧
    validateAppInfo (.obj ([("name", .str "x")] ++ [("bogus", .num 1)])) =
      validateAppInfo (.obj [("name", .str "x")]) :=
  ⟨manifest_unknown_keys_ignored.1 _ "zzz" .null (by decide),
   manifest_unknown_keys_ignored.2.1 _ "bogus" (.num 1) (by decide)⟩

/-! ### C8 — `sql_query` row cap -/

/-- C8: for an allowed database path (and a per-call row cap read from
the context), `sql_query` fetches at most `max_rows + 1` underlying rows
and returns `{columns, rows, truncated}` with exactly `max_rows` rows
and `truncated = true` when the statement yields more than `max_rows`
rows, and all rows with `truncated = false` otherwise. -/
theorem sqlQuery_truncation (ctx : ToolCtx) (db_path query : String)
    (columns : List String) (rows : List (List JVal)) (max_rows : ℕ)
    (hallow : (ctx.sqlite_allow.any (fun a => resolvePath db_path = resolvePath a)) = true)
    (hmax : ctx.max_rows = some max_rows) :
    ((rows.take (max_rows + 1)).length ≤ max_rows + 1) ∧
    (rows.length > max_rows →
      sqlQueryRun ctx db_path query (.ok (columns, rows)) =
        { call_id := ctx.request_id, tool_name := "sql_query",
          result := .obj [("columns", .arr (columns.map .str)),
                          ("rows", .arr ((rows.take max_rows).map .arr)),
                          ("truncated", .bool true)] } ∧
      (rows.take max_rows).length = max_rows) ∧
    (rows.length ≤ max_rows →
      sqlQueryRun ctx db_path query (.ok (columns, rows)) =
        { call_id := ctx.request_id, tool_name := "sql_query",
          result := .obj [("columns", .arr (columns.map .str)),
                          ("rows", .arr (rows.map .arr)),
                          ("truncated", .bool false)] }) := by
  refine ⟨by simp [List.length_take], ?_, ?_⟩
  · intro hgt
    constructor
    · simp only [sqlQueryRun, hallow, hmax]
      simp [List.take_take, List.length_take]
      omega
    · simp [List.length_take]
      omega
  · intro hle
    simp only [sqlQueryRun, hallow, hmax]
    simp [List.take_take, List.length_take, List.take_of_length_le hle,
      List.take_of_length_le (le_trans hle (Nat.le_succ _))]
    omega

/-- A context allowing the database `/tmp/t.db`, used in the witness. -/
def ctxSql : ToolCtx := { request_id := "r", sqlite_allow := ["/tmp/t.db"] }

/-- Witness for C8 at concrete inputs (three underlying rows, cap 2 and
cap 100). -/
theorem sqlQuery_truncation_witness :
    (([[JVal.num 1], [.num 2], [.num 3]].take (100 + 1)).length ≤ 100 + 1) ∧
    sqlQueryRun { ctxSql with max_rows := some 2 } "/tmp/t.db"
        "SELECT x FROM t" (.ok (["x"], [[.num 1], [.num 2], [.num 3]])) =
      { call_id := "r", tool_name := "sql_query",
        result := .obj [("columns", .arr [.str "x"]),
                        ("rows", .arr [.arr [.num 1], .arr [.num 2]]),
                        ("truncated", .bool true)] } ∧
    sqlQueryRun ctxSql "/tmp/t.db"
        "SELECT x FROM t" (.ok (["x"], [[.num 1], [.num 2], [.num 3]])) =
      { call_id := "r", tool_name := "sql_query",
        result := .obj [("columns", .arr [.str "x"]),
                        ("rows", .arr [.arr [.num 1], .arr [.num 2], .arr [.num 3]]),
                        ("truncated", .bool false)] } :=
  ⟨(sqlQuery_truncation ctxSql "/tmp/t.db" "SELECT x FROM t" ["x"]
      [[.num 1], [.num 2], [.num 3]] 100 (by decide) rfl).1,
   ((sqlQuery_truncation { ctxSql with max_rows := some 2 } "/tmp/t.db"
      "SELECT x FROM t" ["x"] [[.num 1], [.num 2], [.num 3]] 2
      (by decide) rfl).2.1 (by decide)).1,
   (sqlQuery_truncation ctxSql "/tmp/t.db" "SELECT x FROM t" ["x"]
      [[.num 1], [.num 2], [.num 3]] 100 (by decide) rfl).2.2 (by decide)⟩

/-! ### C9 — `vector_search` argument requirements -/

/-- A context allowing the vector collection `col`. -/
def ctxVS : ToolCtx := { request_id := "r", vector_allow := ["col"] }

/-- A stub embedding adapter. -/
def embStub : String → Except String (List (List ℚ)) := fun _ => .ok [[9]]

/-- A stub vector adapter returning one document. -/
def searchStub : String → List ℚ → ℕ → Except String (List JVal) :=
  fun _ _ _ => .ok [.str "doc"]

/-- C9 counterexample: an invocation on an allowed collection supplying
*both* `query` and `query_vector` does not fail — it performs the search
with the supplied vector (no embedding call) and succeeds, contradicting
the claim that supplying both yields `success = false` with no search. -/
theorem vectorSearch_both_args_cex :
    (vectorSearchRun ctxVS (some embStub) (some searchStub) "col"
      (some "q") (some [1]) none).1.success = true ∧
    (vectorSearchRun ctxVS (some embStub) (some searchStub) "col"
      (some "q") (some [1]) none).1.error = none ∧
    (vectorSearchRun ctxVS (some embStub) (some searchStub) "col"
      (some "q") (some [1]) none).2 = [.search "col" [1] 10] := by
  refine ⟨rfl, rfl, rfl⟩

/-- C9 amended: `vector_search` requires *at least one* of
`query`/`query_vector`: on an allowed collection, supplying neither
yields `success = false` with an error and no backend call, while
supplying both proceeds — the single backend call is the search with the
supplied `query_vector` (the embedding adapter is not consulted). -/
theorem vectorSearch_arg_requirements (ctx : ToolCtx)
    (embedding : Option (String → Except String (List (List ℚ))))
    (vector : Option (String → List ℚ → ℕ → Except String (List JVal)))
    (collection : String) (q : Option String) (qv : Option (List ℚ)) (tk : Option ℕ)
    (hallow : ctx.vector_allow.any (fun pattern => fnmatch collection pattern) = true) :
    (optStrTruthy q = false → optVecTruthy qv = false →
      (vectorSearchRun ctx embedding vector collection q qv tk).1.success = false ∧
      (vectorSearchRun ctx embedding vector collection q qv tk).1.error =
        some "Either \x27query\x27 or \x27query_vector\x27 must be provided." ∧
      (vectorSearchRun ctx embedding vector collection q qv tk).2 = []) ∧
    (∀ searchFn, vector = some searchFn →
      optStrTruthy q = true → optVecTruthy qv = true →
      (vectorSearchRun ctx embedding vector collection q qv tk).2 =
        [.search collection (qv.getD []) (tk.getD ctx.default_top_k)]) := by
  constructor
  · intro hq hqv
    simp [vectorSearchRun, hallow, hq, hqv]
  · intro searchFn hv hq hqv
    subst hv
    simp only [vectorSearchRun, hallow, hq, hqv]
    simp
    cases hs : searchFn collection (qv.getD []) (tk.getD ctx.default_top_k) <;> simp [hs]

/-- Witness for C9's amended statement at concrete inputs. -/
theorem vectorSearch_arg_requirements_witness :
    ((vectorSearchRun ctxVS (some embStub) (some searchStub) "col"
        none none none).1.success = false ∧
     (vectorSearchRun ctxVS (some embStub) (some searchStub) "col"
        none none none).1.error =
       some "Either \x27query\x27 or \x27query_vector\x27 must be provided." ∧
     (vectorSearchRun ctxVS (some embStub) (some searchStub) "col"
        none none none).2 = []) ∧
    (vectorSearchRun ctxVS (some embStub) (some searchStub) "col"
      (some "q") (some [1]) none).2 = [.search "col" [1] 10] :=
  ⟨(vectorSearch_arg_requirements ctxVS (some embStub) (some searchStub) "col"
      none none none (by decide)).1 rfl rfl,
   (vectorSearch_arg_requirements ctxVS (some embStub) (some searchStub) "col"
      (some "q") (some [1]) none (by decide)).2 searchStub rfl rfl rfl⟩

/-! ### C10 — the filesystem allow gate is a plain string-prefix test -/

/-- A context whose read and write allow lists hold the directory
`/data`. -/
def ctxFS : ToolCtx :=
  { request_id := "r", fs_allow_read := ["/data"], fs_allow_write := ["/data"] }

/-- A filesystem containing the sibling-directory file
`/data-secrets/x`. -/
def fsStub : String → Except String String :=
  fun p => if p = "/data-secrets/x" then .ok "secret" else .error "missing"

/-- A write layer that always succeeds. -/
def fswStub : String → String → Except String Unit := fun _ _ => .ok ()

/-- C10: the allow gate of `read_file`/`write_file` is a plain
string-prefix test on resolved paths, not a directory-boundary test:
`/data-secrets/x` lies outside the allowed directory `/data` (it is
neither `/data` itself nor under `/data/`), yet the gate passes and both
tools proceed — `read_file` returns the file content and `write_file`
performs the write. -/
theorem file_gate_prefix_escape :
    resolvePath "/data-secrets/x" = "/data-secrets/x" ∧
    ("/data-secrets/x" : String) ≠ "/data" ∧
    (strStartsWith "/data-secrets/x" "/data/" = false) ∧
    (strStartsWith "/data-secrets/x" "/data" = true) ∧
    readFileRun ctxFS "/data-secrets/x" fsStub =
      { call_id := "r", tool_name := "read_file", result := .str "secret" } ∧
    writeFileRun ctxFS "/data-secrets/x" "owned" fswStub =
      .ok ({ call_id := "r", tool_name := "write_file",
             result := .obj [("status", .str "ok"), ("bytes_written", .num 5)] },
           some ("/data-secrets/x", "owned")) := by
  refine ⟨rfl, by decide, by decide, by decide, rfl, rfl⟩

/-! ### C1 — denied directives in the orchestrator -/

/-- Count of `request.end` entries in a log segment. -/
def countEnd (l : List AuditEntry) : ℕ :=
  l.countP (fun e => decide (e.event = .request_end))

/-- C1: when the policy check of a directive returns deny, the
orchestrator's directive step writes exactly one `policy.block` entry
whose detail carries the tool, rule and reason, appends one tool-role
message whose content is the JSON `\x7b"error": "Policy denied: <reason>"\x7d`
linked to the directive's call id, and does nothing else: no tool is
invoked, no `tool.call` or `tool.result` entry is written, and
`tools_used` is unchanged (hence the tool name never reaches the
trace). -/
theorem processDirective_deny (manifest : Manifest)
    (registry : String → Option ToolImpl)
    (request_id model app_name policy_mode : String)
    (st : RunState) (tc : ToolCall)
    (hdeny : (directiveDecision manifest tc).verdict = .deny) :
    processDirective manifest registry request_id model app_name policy_mode st tc =
      { st with
        log := st.log ++ [{ request_id := request_id, event := .policy_block,
                            app := app_name, model := model, policy_mode := policy_mode,
                            detail := [("tool", .str tc.function.name),
                                       ("rule", .str (directiveDecision manifest tc).rule),
                                       ("reason", .str (directiveDecision manifest tc).reason)] }],
        messages := st.messages ++ [{ role := .tool,
                                      content := some (jdump (.obj [("error",
                                        .str ("Policy denied: " ++ (directiveDecision manifest tc).reason))])),
                                      tool_call_id := some tc.id }] } ∧
    (processDirective manifest registry request_id model app_name policy_mode st tc).tools_used
      = st.tools_used ∧
    (processDirective manifest registry request_id model app_name policy_mode st tc).invoked
      = st.invoked ∧
    ((processDirective manifest registry request_id model app_name policy_mode st tc).log.filter
        (fun e => decide (e.event = .tool_call) || decide (e.event = .tool_result)))
      = st.log.filter (fun e => decide (e.event = .tool_call) || decide (e.event = .tool_result)) := by
  refine ⟨?_, ?_, ?_, ?_⟩ <;> simp [processDirective, hdeny]

/-- A directive for a tool that `mLoc` does not allow. -/
def tcDenied : ToolCall :=
  { id := "c1", function := { name := "sql_query", argumentsParsed := some [] } }

/-- An initial run state used in witnesses. -/
def stInit : RunState :=
  { messages := [], log := [], tools_used := [], tables_queried := [],
    lastMessage := { role := .assistant, content := some "" },
    adapterCalls := 0, invoked := [] }

/-- Witness for C1 at concrete inputs. -/
theorem processDirective_deny_witness :
    (directiveDecision mLoc tcDenied).verdict = .deny ∧
    (processDirective mLoc (fun _ => none) "rid" "m0" "app0" "local_only"
      stInit tcDenied).tools_used = stInit.tools_used ∧
    (processDirective mLoc (fun _ => none) "rid" "m0" "app0" "local_only"
      stInit tcDenied).invoked = stInit.invoked :=
  ⟨by decide,
   (processDirective_deny mLoc (fun _ => none) "rid" "m0" "app0" "local_only"
     stInit tcDenied (by decide)).2.1,
   (processDirective_deny mLoc (fun _ => none) "rid" "m0" "app0" "local_only"
     stInit tcDenied (by decide)).2.2.1⟩

/-! ### C3 — model-call bound and the trailing `request.end` -/

/-- Each directive step leaves the adapter-call counter and the number
of `request.end` entries unchanged. -/
theorem processDirective_preserves (manifest : Manifest)
    (registry : String → Option ToolImpl)
    (request_id model app_name policy_mode : String)
    (st : RunState) (tc : ToolCall) :
    (processDirective manifest registry request_id model app_name policy_mode st tc).adapterCalls
      = st.adapterCalls ∧
    countEnd (processDirective manifest registry request_id model app_name policy_mode st tc).log
      = countEnd st.log := by
  by_cases h : (directiveDecision manifest tc).verdict = .deny <;>
    simp [processDirective, h, countEnd, List.countP_append, List.countP_cons]

/-- The directive fold preserves the adapter-call counter and the
`request.end` count. -/
theorem foldl_processDirective_preserves (manifest : Manifest)
    (registry : String → Option ToolImpl)
    (request_id model app_name policy_mode : String)
    (tcs : List ToolCall) (st : RunState) :
    ((tcs.foldl (processDirective manifest registry request_id model app_name policy_mode) st).adapterCalls
      = st.adapterCalls) ∧
    countEnd (tcs.foldl (processDirective manifest registry request_id model app_name policy_mode) st).log
      = countEnd st.log := by
  induction tcs generalizing st with
  | nil => exact ⟨rfl, rfl⟩
  | cons tc rest ih =>
    simp only [List.foldl_cons]
    refine ⟨?_, ?_⟩
    · rw [(ih _).1,
        (processDirective_preserves manifest registry request_id model app_name policy_mode st tc).1]
    · rw [(ih _).2,
        (processDirective_preserves manifest registry request_id model app_name policy_mode st tc).2]

/-- The loop makes at most `fuel` adapter calls and writes no
`request.end` entry. -/
theorem runLoop_preserves (adapter : List Message → String → Message)
    (manifest : Manifest) (registry : String → Option ToolImpl)
    (request_id model app_name policy_mode : String)
    (fuel : ℕ) (st : RunState) :
    ((runLoop adapter manifest registry request_id model app_name policy_mode fuel st).adapterCalls
      ≤ st.adapterCalls + fuel) ∧
    countEnd (runLoop adapter manifest registry request_id model app_name policy_mode fuel st).log
      = countEnd st.log := by
  induction fuel generalizing st with
  | zero => exact ⟨Nat.le_refl _, rfl⟩
  | succ f ih =>
    simp only [runLoop]
    split
    · exact ⟨by simp, rfl⟩
    · refine ⟨?_, ?_⟩
      · refine le_trans (ih _).1 ?_
        have := (foldl_processDirective_preserves manifest registry request_id model
          app_name policy_mode (adapter st.messages model).tool_calls
          { st with lastMessage := adapter st.messages model,
                    adapterCalls := st.adapterCalls + 1,
                    messages := st.messages ++ [adapter st.messages model] }).1
        simp only [this]
        simp
        omega
      · rw [(ih _).2]
        exact (foldl_processDirective_preserves manifest registry request_id model
          app_name policy_mode _ _).2

/-- C3: on every request the orchestrator calls the model adapter at
most 5 times, and its audit trail contains exactly one `request.end`
entry, which is the very last entry and carries `tools_used` in its
detail. -/
theorem routerRun_bounds (adapter : List Message → String → Message)
    (manifest : Manifest) (registry : String → Option ToolImpl)
    (request_id : String) (request : ChatRequest) :
    (routerRun adapter manifest registry request_id request).adapterCalls ≤ 5 ∧
    countEnd (routerRun adapter manifest registry request_id request).log = 1 ∧
    (routerRun adapter manifest registry request_id request).log.getLast? = some
      { request_id := request_id, event := .request_end, app := manifest.app.name,
        model := (if manifest.models.default.isEmpty then request.model
                  else manifest.models.default),
        policy_mode := manifest.runtime.policy_mode.toValue,
        detail := [("tools_used",
          .arr ((routerRun adapter manifest registry request_id request).tools_used.map .str))] } := by
  have hpres := runLoop_preserves adapter manifest registry request_id
    (if manifest.models.default.isEmpty then request.model else manifest.models.default)
    manifest.app.name manifest.runtime.policy_mode.toValue MAX_ITERATIONS
    { messages := (match request.messages with
        | [] => []
        | m0 :: rest =>
            if m0.role ≠ .system then
              { role := .system,
                content := some ("You are " ++ manifest.app.name ++ ", a DomeKit-powered assistant.")
                : Message } :: m0 :: rest
            else m0 :: rest),
      log := [{ request_id := request_id, event := .request_start,
                app := manifest.app.name,
                model := (if manifest.models.default.isEmpty then request.model
                          else manifest.models.default),
                policy_mode := manifest.runtime.policy_mode.toValue }],
      tools_used := [], tables_queried := [],
      lastMessage := { role := .assistant, content := some "" },
      adapterCalls := 0, invoked := [] }
  refine ⟨?_, ?_, ?_⟩
  · simpa [routerRun, MAX_ITERATIONS] using hpres.1
  · simp only [routerRun]
    simp [countEnd, List.countP_append, List.countP_cons]
    simpa [countEnd] using hpres.2
  · simp only [routerRun]
    simp [List.getLast?_append]

end DomeKit
